import Mathlib

/-!
Shallow embedding of the kart-io/logger core: configuration resolution
(`option.LogOption` and `config.Config`), the level model, the factory's
engine selection and fallback, the two engine adapters' log-call effect
behaviour, and the OTLP export client's HTTP URL construction.

Go conventions used throughout the embedding:
* `time.Duration` is modelled as `Nat` nanoseconds;
* Go `*bool` is `Option Bool`, a nil struct pointer is `Option _`;
* Go maps used for export attributes are modelled as insertion-ordered
  association lists with overwrite on duplicate keys;
* fallible Go functions returning `error` are `Except String _`.
-/

/-- Severity levels of the logger.  Modelled from the spec: the `core`
package's level type is not under `src/`; the spec fixes the five values and
their total order (`debug < info < warn < error < fatal`). -/
inductive Level where
  | debug
  | info
  | warn
  | error
  | fatal
deriving DecidableEq, Repr

/-- Numeric form of a level, respecting the spec's total order. -/
def Level.toNat : Level → Nat
  | .debug => 0
  | .info => 1
  | .warn => 2
  | .error => 3
  | .fatal => 4

/-- Canonical lowercase string form of a level. -/
def Level.toLowerString : Level → String
  | .debug => "debug"
  | .info => "info"
  | .warn => "warn"
  | .error => "error"
  | .fatal => "fatal"

/-- Character-wise lowercasing of a string (`strings.ToLower` for the
level names, which are ASCII). -/
def asciiLower (s : String) : String :=
  ⟨s.data.map Char.toLower⟩

/-- Modelled from the spec: `core.ParseLevel` is not under `src/`.  The spec
says parse fails exactly when the string matches none of the five recognized
names, case-insensitively. -/
def parseLevel (s : String) : Except String Level :=
  match asciiLower s with
  | "debug" => .ok .debug
  | "info" => .ok .info
  | "warn" => .ok .warn
  | "error" => .ok .error
  | "fatal" => .ok .fatal
  | _ => .error ("invalid log level: " ++ s)

/-- Nanoseconds in one second (`time.Second`). -/
def nsPerSecond : Nat := 1000000000

/-- OTLP-specific configuration (`option.OTLPOption`). -/
structure OTLPOption where
  enabled : Option Bool
  endpoint : String
  protocol : String
  timeout : Nat
  headers : List (String × String)
  insecure : Bool
deriving DecidableEq, Repr

/-- Zero value of `OTLPOption`, as produced by `&OTLPOption{}`. -/
def OTLPOption.empty : OTLPOption :=
  { enabled := none, endpoint := "", protocol := "", timeout := 0,
    headers := [], insecure := false }

/-- Complete logger configuration (`option.LogOption`). -/
structure LogOption where
  engine : String
  level : String
  format : String
  outputPaths : List String
  otlpEndpoint : String
  otlp : Option OTLPOption
  development : Bool
  disableCaller : Bool
  disableStacktrace : Bool
deriving DecidableEq, Repr

/-- Protocol and timeout defaults applied at the end of
`resolveOTLPConfig` when OTLP ended up enabled. -/
def OTLPOption.applyDefaults (o : OTLPOption) : OTLPOption :=
  if o.enabled = some true then
    { o with
      protocol := if o.protocol = "" then "grpc" else o.protocol,
      timeout := if o.timeout = 0 then 10 * nsPerSecond else o.timeout }
  else o

/-- Embedding of `(*LogOption).resolveOTLPConfig` from `src/option/option.go`.
The Go method mutates `opt` in place; the embedding returns the updated
record. -/
def LogOption.resolveOTLPConfig (opt : LogOption) : LogOption :=
  let o := opt.otlp.getD OTLPOption.empty
  if opt.otlpEndpoint ≠ "" then
    if o.enabled = some false then
      { opt with otlp := some o }
    else
      let o := if o.enabled = none then { o with enabled := some true } else o
      let o := { o with endpoint := opt.otlpEndpoint }
      { opt with otlp := some o.applyDefaults }
  else
    let o :=
      if o.enabled = none ∧ o.endpoint ≠ "" then { o with enabled := some true } else o
    { opt with otlp := some o.applyDefaults }

/-- Embedding of `(*LogOption).IsOTLPEnabled`. -/
def LogOption.isOTLPEnabled (opt : LogOption) : Bool :=
  match opt.otlp with
  | none => false
  | some o => o.enabled = some true && o.endpoint ≠ ""

/-- Embedding of `(*LogOption).Validate`: parse the level (the only hard
error), resolve the OTLP configuration, normalize an unknown engine to
"slog". -/
def LogOption.validate (opt : LogOption) : Except String LogOption :=
  match parseLevel opt.level with
  | .error e => .error e
  | .ok _ =>
    let opt := opt.resolveOTLPConfig
    if opt.engine ≠ "zap" ∧ opt.engine ≠ "slog" then
      .ok { opt with engine := "slog" }
    else
      .ok opt

/-- OTLP-specific configuration of the `config` package
(`config.OTLPConfig`, `src/unnamed/part_000`); it has no `Insecure` field. -/
structure OTLPConfig where
  enabled : Option Bool
  endpoint : String
  protocol : String
  timeout : Nat
  headers : List (String × String)
deriving DecidableEq, Repr

/-- Zero value of `OTLPConfig`, as produced by `&OTLPConfig{}`. -/
def OTLPConfig.empty : OTLPConfig :=
  { enabled := none, endpoint := "", protocol := "", timeout := 0, headers := [] }

/-- Complete logger configuration of the `config` package
(`config.Config`, `src/unnamed/part_000`). -/
structure Config where
  engine : String
  level : String
  format : String
  outputPaths : List String
  otlpEndpoint : String
  otlp : Option OTLPConfig
  development : Bool
  disableCaller : Bool
  disableStacktrace : Bool
deriving DecidableEq, Repr

/-- Protocol and timeout defaults of the `config` resolver. -/
def OTLPConfig.applyDefaults (o : OTLPConfig) : OTLPConfig :=
  if o.enabled = some true then
    { o with
      protocol := if o.protocol = "" then "grpc" else o.protocol,
      timeout := if o.timeout = 0 then 10 * nsPerSecond else o.timeout }
  else o

/-- Embedding of `(*Config).resolveOTLPConfig` from `src/unnamed/part_000`.
Unlike the `option` package resolver, the flattened endpoint is used only
when the nested endpoint is not set. -/
def Config.resolveOTLPConfig (c : Config) : Config :=
  let o := c.otlp.getD OTLPConfig.empty
  if c.otlpEndpoint ≠ "" then
    if o.enabled = some false then
      { c with otlp := some o }
    else
      let o := if o.enabled = none then { o with enabled := some true } else o
      let o := if o.endpoint = "" then { o with endpoint := c.otlpEndpoint } else o
      { c with otlp := some o.applyDefaults }
  else
    let o :=
      if o.enabled = none ∧ o.endpoint ≠ "" then { o with enabled := some true } else o
    { c with otlp := some o.applyDefaults }

/-- Embedding of `(*Config).IsOTLPEnabled`. -/
def Config.isOTLPEnabled (c : Config) : Bool :=
  match c.otlp with
  | none => false
  | some o => o.enabled = some true && o.endpoint ≠ ""

/-! Logger factory (`src/factory/factory.go`).  Engine construction
(`NewZapLogger` / `NewSlogLogger`) is abstracted as a function argument
`construct` from the engine name to an `Except`; `createLogger` additionally
returns the list of engine names whose construction it attempted, in order,
so that "attempts no construction" and the fallback order are expressible. -/

/-- The single alternate engine of `CreateLogger`'s fallback order. -/
def alternateEngine (e : String) : String :=
  if e = "zap" then "slog" else "zap"

/-- Embedding of `(*LoggerFactory).CreateLogger`: validate, reject an
engine outside the closed set, try the requested engine, fall back once.
The second component records which constructions were attempted. -/
def LoggerFactory.createLogger {L : Type} (opt : LogOption)
    (construct : String → Except String L) : Except String L × List String :=
  match opt.validate with
  | .error e => (.error ("invalid configuration: " ++ e), [])
  | .ok v =>
    if v.engine ≠ "zap" ∧ v.engine ≠ "slog" then
      (.error ("unsupported logger engine: " ++ v.engine), [])
    else
      match construct v.engine with
      | .ok l => (.ok l, [v.engine])
      | .error _ => (construct (alternateEngine v.engine),
                     [v.engine, alternateEngine v.engine])

/-! Engine adapters.  The values a caller can pass through `...interface{}`
are modelled by `GoVal`; the `fields.FieldMapper` (its source is not under
`src/`) is abstracted as a function `mapper : String → String` standing for
`getStandardFieldName`, which returns the canonical name when a mapping
exists and the original name otherwise. -/

/-- A dynamic Go value as passed to the logging methods. -/
inductive GoVal where
  | vStr (s : String)
  | vInt (n : Int)
  | vNil
deriving DecidableEq, Repr

/-- Whether the dynamic value is a Go string (used by `fmt.Sprint` spacing). -/
def GoVal.isString : GoVal → Bool
  | .vStr _ => true
  | _ => false

/-- Embedding of `anyToString` (both engine files): nil prints `<nil>`,
strings pass through, everything else takes its default printed form. -/
def anyToString : GoVal → String
  | .vNil => "<nil>"
  | .vStr s => s
  | .vInt n => toString n

/-- Embedding of `formatArgs` in the slog engine: empty input gives `""`,
a single value its string form, several values joined by single spaces. -/
def formatArgs (args : List GoVal) : String :=
  match args with
  | [] => ""
  | [a] => anyToString a
  | _ => String.intercalate " " (args.map anyToString)

/-- Helper of `zapSprint`: concatenate starting from a first operand,
spacing per `fmt.Sprint`. -/
def zapSprintAux : GoVal → List GoVal → String
  | a, [] => anyToString a
  | a, b :: rest =>
    anyToString a ++ (if !a.isString && !b.isString then " " else "")
      ++ zapSprintAux b rest

/-- Message built by zap's sugared variadic methods, which use
`fmt.Sprint` semantics: spaces only between two non-string operands. -/
def zapSprint : List GoVal → String
  | [] => ""
  | a :: rest => zapSprintAux a rest

/-- Embedding of `mapToSlogLevel` (`src/unnamed/part_001`): slog's numeric
levels, with fatal collapsed onto slog's error level. -/
def mapToSlogLevel : Level → Int
  | .debug => -4
  | .info => 0
  | .warn => 4
  | .error => 8
  | .fatal => 8

/-- Embedding of `mapToZapLevel` (`src/engines/zap/zap.go`): zapcore's
numeric levels. -/
def mapToZapLevel : Level → Int
  | .debug => -1
  | .info => 0
  | .warn => 1
  | .error => 2
  | .fatal => 5

/-- Whether the slog handler accepts a call mapped from `lvl` when the
configured minimum is `minL` (`handlerOpts.Level` comparison). -/
def slogEnabled (minL lvl : Level) : Bool :=
  mapToSlogLevel minL ≤ mapToSlogLevel lvl

/-- Whether zap's configured atomic level accepts a call at `lvl`. -/
def zapEnabled (minL lvl : Level) : Bool :=
  mapToZapLevel minL ≤ mapToZapLevel lvl

/-- Canonical caller field key.  Modelled from the spec: the `fields`
package constants are not under `src/`; the spec's canonical table names the
key `caller`. -/
def callerField : String := "caller"

/-- Canonical stacktrace field key, modelled from the spec like
`callerField`. -/
def stacktraceField : String := "stacktrace"

/-- Embedding of `(*SlogLogger).convertToSlogAttrs`: pairs become
attributes with the key passed through the field mapper (the mapped name is
used only when non-empty, per the source), and an odd trailing key becomes
an attribute with a nil value whose key is, in this method, not mapped. -/
def convertToSlogAttrs (mapper : String → String) :
    List GoVal → List (String × GoVal)
  | [] => []
  | [k] => [(anyToString k, GoVal.vNil)]
  | k :: v :: rest =>
    let key := anyToString k
    let mapped := mapper key
    (if mapped ≠ "" then mapped else key, v) :: convertToSlogAttrs mapper rest

/-- Embedding of `(*ZapLogger).standardizeFields`: every key, the odd
trailing one included, goes through the field mapper; the trailing key is
paired with nil.  The Go method returns the flat interleaved
`[]interface{}`; the embedding returns the same data as key/value pairs. -/
def zapStandardizeFields (mapper : String → String) :
    List GoVal → List (String × GoVal)
  | [] => []
  | [k] => [(mapper (anyToString k), GoVal.vNil)]
  | k :: v :: rest => (mapper (anyToString k), v) :: zapStandardizeFields mapper rest

/-- Consecutive key/value pairs of an argument list; an odd trailing
element yields no pair, mirroring the `break` in both engines'
`sendToOTLP` loops. -/
def kvPairs : List GoVal → List (GoVal × GoVal)
  | k :: v :: rest => (k, v) :: kvPairs rest
  | _ => []

/-- Insert into the association-list model of a Go map: overwrite the
existing entry for the key, else append. -/
def setAttr (m : List (String × GoVal)) (k : String) (v : GoVal) :
    List (String × GoVal) :=
  if m.any (fun p => p.1 = k) then
    m.map (fun p => if p.1 = k then (k, v) else p)
  else m ++ [(k, v)]

/-- Attribute map built by `sendToOTLP` (identical in both engines): pairs
only, keys through the field mapper, odd trailing element skipped. -/
def exportAttrs (mapper : String → String) (kvs : List GoVal) :
    List (String × GoVal) :=
  (kvPairs kvs).foldl (fun m p => setAttr m (mapper (anyToString p.1)) p.2) []

/-- A record written to a local sink, after the standardization layer. -/
structure LogRecord where
  lvl : Level
  msg : String
  attrs : List (String × GoVal)
deriving DecidableEq, Repr

/-- A record handed to the OTLP Export Client (`SendLogRecord` call). -/
structure ExportRecord where
  lvl : Level
  msg : String
  attrs : List (String × GoVal)
deriving DecidableEq, Repr

/-- Observable side effects of one log call: records written locally,
records handed to the Export Client, and whether the process exits. -/
structure Effects where
  locals : List LogRecord
  exports : List ExportRecord
  exited : Bool
deriving DecidableEq, Repr

/-- State of a `SlogLogger` relevant to a single call.  `caller` and
`stacktrace` abstract the runtime-stack lookups `getCaller` and
`getStacktrace` (the empty string meaning no caller found, respectively
stacktraces disabled or absent). -/
structure SlogLogger where
  level : Level
  mapper : String → String
  caller : String
  stacktrace : String
  hasOTLP : Bool

/-- State of a `ZapLogger` relevant to a single call. -/
structure ZapLogger where
  level : Level
  mapper : String → String
  caller : String
  stacktrace : String
  hasOTLP : Bool

/-- Caller attribute appended by the slog engine when `getCaller` found a
location. -/
def SlogLogger.callerAttrs (l : SlogLogger) : List (String × GoVal) :=
  if l.caller ≠ "" then [(callerField, GoVal.vStr l.caller)] else []

/-- Stacktrace attribute appended by the slog engine on error and fatal
calls when `getStacktrace` produced one. -/
def SlogLogger.stackAttrs (l : SlogLogger) (lvl : Level) : List (String × GoVal) :=
  if (lvl = .error ∨ lvl = .fatal) ∧ l.stacktrace ≠ "" then
    [(stacktraceField, GoVal.vStr l.stacktrace)]
  else []

/-- Record produced by `standardizedHandler.Handle`: the constant engine
attribute first, then every incoming attribute with its key standardized. -/
def slogHandle (l : SlogLogger) (lvl : Level) (msg : String)
    (attrs : List (String × GoVal)) : LogRecord :=
  ⟨lvl, msg, ("engine", GoVal.vStr "slog")
      :: attrs.map (fun p => (l.mapper p.1, p.2))⟩

/-- Effect of both engines' `sendToOTLP`: nothing without a provider, one
`SendLogRecord` call otherwise. -/
def sendToOTLPEffect (hasOTLP : Bool) (mapper : String → String)
    (lvl : Level) (msg : String) (kvs : List GoVal) : List ExportRecord :=
  if hasOTLP then [⟨lvl, msg, exportAttrs mapper kvs⟩] else []

/-- Effects of the slog engine's five variadic methods
(`Debug`/`Info`/`Warn`/`Error`/`Fatal`), uniform in the severity: the
message is `formatArgs`, caller and (for error/fatal) stacktrace attributes
are appended, the handler writes when its level admits the call, no export
happens, and `Fatal` exits unconditionally. -/
def SlogLogger.basicCall (l : SlogLogger) (lvl : Level) (args : List GoVal) :
    Effects :=
  let attrs := l.callerAttrs ++ l.stackAttrs lvl
  { locals := if slogEnabled l.level lvl then
      [slogHandle l lvl (formatArgs args) attrs] else [],
    exports := [],
    exited := lvl = .fatal }

/-- Effects of the slog engine's five printf-style methods; `msg` is the
already-rendered `fmt.Sprintf` result. -/
def SlogLogger.printfCall (l : SlogLogger) (lvl : Level) (msg : String) :
    Effects :=
  let attrs := l.callerAttrs ++ l.stackAttrs lvl
  { locals := if slogEnabled l.level lvl then
      [slogHandle l lvl msg attrs] else [],
    exports := [],
    exited := lvl = .fatal }

/-- Effects of the slog engine's five key/value methods
(`Debugw` … `Fatalw`): local write when the handler level admits the call,
then an unconditional `sendToOTLP`, then (for `Fatalw`) the exit. -/
def SlogLogger.kvCall (l : SlogLogger) (lvl : Level) (msg : String)
    (kvs : List GoVal) : Effects :=
  let attrs := convertToSlogAttrs l.mapper kvs ++ l.callerAttrs ++ l.stackAttrs lvl
  { locals := if slogEnabled l.level lvl then [slogHandle l lvl msg attrs] else [],
    exports := sendToOTLPEffect l.hasOTLP l.mapper lvl msg kvs,
    exited := lvl = .fatal }

/-- Record written by zap for one call: the persistent engine field
attached at construction, then the given attributes. -/
def zapRecord (lvl : Level) (msg : String) (attrs : List (String × GoVal)) :
    LogRecord :=
  ⟨lvl, msg, ("engine", GoVal.vStr "zap") :: attrs⟩

/-- Effects of the zap engine's five variadic methods, which delegate to
the sugared logger (`fmt.Sprint` message, level gate from the zap config);
`Fatal` writes (its level always passes) and exits inside zap. -/
def ZapLogger.basicCall (l : ZapLogger) (lvl : Level) (args : List GoVal) :
    Effects :=
  { locals := if zapEnabled l.level lvl then
      [zapRecord lvl (zapSprint args) []] else [],
    exports := [],
    exited := lvl = .fatal }

/-- Effects of the zap engine's five printf-style methods; `msg` is the
rendered template. -/
def ZapLogger.printfCall (l : ZapLogger) (lvl : Level) (msg : String) :
    Effects :=
  { locals := if zapEnabled l.level lvl then [zapRecord lvl msg []] else [],
    exports := [],
    exited := lvl = .fatal }

/-- Effects of the zap engine's five key/value methods: the sugared write
with standardized fields, then `sendToOTLP` — except that `Fatalw`'s
sugared write exits the process before the `sendToOTLP` line runs, so a
fatal key/value call never reaches the Export Client. -/
def ZapLogger.kvCall (l : ZapLogger) (lvl : Level) (msg : String)
    (kvs : List GoVal) : Effects :=
  { locals := if zapEnabled l.level lvl then
      [zapRecord lvl msg (zapStandardizeFields l.mapper kvs)] else [],
    exports := if lvl = .fatal then []
      else sendToOTLPEffect l.hasOTLP l.mapper lvl msg kvs,
    exited := lvl = .fatal }

/-- Embedding of `strings.HasPrefix` over the character lists of the two
strings. -/
def strHasPrefix (s p : String) : Bool :=
  p.data.isPrefixOf s.data

/-- Whether `sub` occurs as a contiguous run inside the character list. -/
def containsSub (sub : List Char) : List Char → Bool
  | [] => sub.isEmpty
  | c :: rest => sub.isPrefixOf (c :: rest) || containsSub sub rest

/-- Embedding of `strings.Contains` over the character lists. -/
def strContains (s sub : String) : Bool :=
  containsSub sub.data s.data

/-- Embedding of the URL construction in `(*OTLPClient).exportHTTP`
(`src/otlp/provider.go`): the endpoint is used literally when it starts
with "http", else it is wrapped as `http://<endpoint>/v1/logs`. -/
def buildHTTPURL (endpoint : String) : String :=
  if strHasPrefix endpoint "http" then endpoint
  else "http://" ++ endpoint ++ "/v1/logs"

/-- Whether a string contains a URL scheme separator; the spec's notion of
"the endpoint already contains a scheme". -/
def containsScheme (s : String) : Bool :=
  strContains s "://"

/-- Modelled from the spec for comparison with `buildHTTPURL`: the spec
says the request URL is the literal endpoint when it already contains a
scheme, else `http://` plus the bare host:port plus `/v1/logs`. -/
def specHTTPURL (endpoint : String) : String :=
  if containsScheme endpoint then endpoint
  else "http://" ++ endpoint ++ "/v1/logs"

/-! Helper lemmas about the defaults pass of the resolvers. -/

theorem OTLPOption.applyDefaults_enabled (o : OTLPOption) :
    o.applyDefaults.enabled = o.enabled := by
  unfold OTLPOption.applyDefaults
  split <;> rfl

theorem OTLPOption.applyDefaults_endpoint (o : OTLPOption) :
    o.applyDefaults.endpoint = o.endpoint := by
  unfold OTLPOption.applyDefaults
  split <;> rfl

theorem OTLPOption.applyDefaults_idem (o : OTLPOption) :
    o.applyDefaults.applyDefaults = o.applyDefaults := by
  unfold OTLPOption.applyDefaults
  by_cases h : o.enabled = some true
  · by_cases hp : o.protocol = ""
    · by_cases ht : o.timeout = 0 <;> simp [h, hp, ht, nsPerSecond]
    · by_cases ht : o.timeout = 0 <;> simp [h, hp, ht, nsPerSecond]
  · simp [h]

theorem cfgApplyDefaults_enabled (o : OTLPConfig) :
    o.applyDefaults.enabled = o.enabled := by
  unfold OTLPConfig.applyDefaults
  split <;> rfl

theorem cfgApplyDefaults_endpoint (o : OTLPConfig) :
    o.applyDefaults.endpoint = o.endpoint := by
  unfold OTLPConfig.applyDefaults
  split <;> rfl

theorem cfgApplyDefaults_idem (o : OTLPConfig) :
    o.applyDefaults.applyDefaults = o.applyDefaults := by
  unfold OTLPConfig.applyDefaults
  by_cases h : o.enabled = some true
  · by_cases hp : o.protocol = ""
    · by_cases ht : o.timeout = 0 <;> simp [h, hp, ht, nsPerSecond]
    · by_cases ht : o.timeout = 0 <;> simp [h, hp, ht, nsPerSecond]
  · simp [h]

/-- C1: for every raw configuration whose nested OTLP setting has enabled
explicitly set to false, after `resolveOTLPConfig` the predicate
`IsOTLPEnabled` is false, whatever the flattened or nested endpoints are. -/
theorem C1_explicit_disable_wins (opt : LogOption) (o : OTLPOption)
    (h1 : opt.otlp = some o) (h2 : o.enabled = some false) :
    opt.resolveOTLPConfig.isOTLPEnabled = false := by
  unfold LogOption.resolveOTLPConfig
  rw [h1]
  by_cases he : opt.otlpEndpoint = ""
  · simp [he, h2, LogOption.isOTLPEnabled, OTLPOption.applyDefaults]
  · simp [he, h2, LogOption.isOTLPEnabled]

/-- Concrete input for the C1 witness: flattened and nested endpoints both
present, nested enabled explicitly false. -/
def optC1 : LogOption :=
  { engine := "slog", level := "INFO", format := "json",
    outputPaths := ["stdout"], otlpEndpoint := "http://localhost:4317",
    otlp := some { enabled := some false, endpoint := "http://other:4318",
                   protocol := "", timeout := 0, headers := [],
                   insecure := false },
    development := false, disableCaller := false, disableStacktrace := false }

/-- Witness for C1 at a concrete configuration. -/
theorem C1_witness :
    optC1.otlp = some { enabled := some false, endpoint := "http://other:4318",
                        protocol := "", timeout := 0, headers := [],
                        insecure := false }
      ∧ optC1.resolveOTLPConfig.isOTLPEnabled = false :=
  ⟨rfl, C1_explicit_disable_wins optC1 _ rfl rfl⟩

/-- Concrete input refuting C2 on the `config` package resolver: both
endpoints set, enabled unset. -/
def cfgC2 : Config :=
  { engine := "slog", level := "INFO", format := "json",
    outputPaths := ["stdout"], otlpEndpoint := "http://flat:4317",
    otlp := some { enabled := none, endpoint := "http://nested:4318",
                   protocol := "", timeout := 0, headers := [] },
    development := false, disableCaller := false, disableStacktrace := false }

/-- Counterexample to C2: in the `config` package resolver, with both the
flattened and the nested endpoint non-empty and enabled not explicitly
false, the resolved nested endpoint is the nested value, not the flattened
one. -/
theorem C2_counterexample :
    cfgC2.otlpEndpoint ≠ ""
      ∧ cfgC2.otlp.map OTLPConfig.endpoint = some "http://nested:4318"
      ∧ cfgC2.otlp.map OTLPConfig.enabled = some none
      ∧ cfgC2.resolveOTLPConfig.otlp.map OTLPConfig.endpoint
          ≠ some cfgC2.otlpEndpoint := by
  decide

/-- C2 as amended: the `option` package resolver overwrites the nested
endpoint with the flattened value, while the `config` package resolver
keeps a non-empty nested endpoint unchanged, so when both are set the two
resolvers disagree: `option` yields the flattened value and `config` the
nested one. -/
theorem C2_amended (opt : LogOption) (o : OTLPOption)
    (c : Config) (oc : OTLPConfig)
    (h1 : opt.otlp = some o) (h2 : opt.otlpEndpoint ≠ "")
    (h3 : o.enabled ≠ some false)
    (g1 : c.otlp = some oc) (g2 : c.otlpEndpoint ≠ "")
    (g3 : oc.endpoint ≠ "") :
    opt.resolveOTLPConfig.otlp.map OTLPOption.endpoint = some opt.otlpEndpoint
      ∧ c.resolveOTLPConfig.otlp.map OTLPConfig.endpoint = some oc.endpoint := by
  constructor
  · unfold LogOption.resolveOTLPConfig
    rw [h1]
    by_cases hen : o.enabled = none
    · simp [h2, h3, hen, OTLPOption.applyDefaults_endpoint]
    · simp [h2, h3, hen, OTLPOption.applyDefaults_endpoint]
  · unfold Config.resolveOTLPConfig
    rw [g1]
    by_cases hen : oc.enabled = some false
    · simp [g2, hen]
    · by_cases hnn : oc.enabled = none
      · simp [g2, g3, hen, hnn, cfgApplyDefaults_endpoint]
      · simp [g2, g3, hen, hnn, cfgApplyDefaults_endpoint]

/-- Concrete input for the C2 witness on the `option` package resolver. -/
def optC2 : LogOption :=
  { engine := "slog", level := "INFO", format := "json",
    outputPaths := ["stdout"], otlpEndpoint := "http://flat:4317",
    otlp := some { enabled := none, endpoint := "http://nested:4318",
                   protocol := "", timeout := 0, headers := [],
                   insecure := false },
    development := false, disableCaller := false, disableStacktrace := false }

/-- Witness for the amended C2 at concrete configurations. -/
theorem C2_witness :
    optC2.resolveOTLPConfig.otlp.map OTLPOption.endpoint
        = some "http://flat:4317"
      ∧ cfgC2.resolveOTLPConfig.otlp.map OTLPConfig.endpoint
        = some "http://nested:4318" :=
  C2_amended optC2 _ cfgC2 _ rfl (by decide) (by decide) rfl (by decide)
    (by decide)

/-- C7: a raw configuration whose flattened endpoint is non-empty and whose
nested OTLP setting is absent or the zero value resolves to an enabled
export with the flattened endpoint, the default protocol "grpc" and the
default timeout of ten seconds. -/
theorem C7_flattened_auto_enable (opt : LogOption)
    (h1 : opt.otlpEndpoint ≠ "")
    (h2 : opt.otlp = none ∨ opt.otlp = some OTLPOption.empty) :
    opt.resolveOTLPConfig.isOTLPEnabled = true
      ∧ opt.resolveOTLPConfig.otlp
          = some { enabled := some true, endpoint := opt.otlpEndpoint,
                   protocol := "grpc", timeout := 10 * nsPerSecond,
                   headers := [], insecure := false } := by
  have hres : opt.resolveOTLPConfig.otlp
      = some { enabled := some true, endpoint := opt.otlpEndpoint,
               protocol := "grpc", timeout := 10 * nsPerSecond,
               headers := [], insecure := false } := by
    unfold LogOption.resolveOTLPConfig
    rcases h2 with h2 | h2 <;>
      simp [h2, h1, OTLPOption.empty, OTLPOption.applyDefaults]
  refine ⟨?_, hres⟩
  rw [LogOption.isOTLPEnabled, hres]
  simp [h1]

/-- Concrete input for the C7 witness: only the flattened endpoint set. -/
def optC7 : LogOption :=
  { engine := "slog", level := "INFO", format := "json",
    outputPaths := ["stdout"], otlpEndpoint := "http://localhost:4317",
    otlp := none, development := false, disableCaller := false,
    disableStacktrace := false }

/-- Witness for C7 at a concrete configuration. -/
theorem C7_witness :
    optC7.resolveOTLPConfig.isOTLPEnabled = true
      ∧ optC7.resolveOTLPConfig.otlp
          = some { enabled := some true, endpoint := "http://localhost:4317",
                   protocol := "grpc", timeout := 10 * nsPerSecond,
                   headers := [], insecure := false } :=
  C7_flattened_auto_enable optC7 (by decide) (Or.inl rfl)

/-- C8: `Validate` fails exactly when the level string fails to parse, and
an engine selector outside the closed set is silently normalized to "slog"
while one inside the set is kept. -/
theorem C8_validate_level_only (opt : LogOption) :
    (∀ e, parseLevel opt.level = .error e → opt.validate = .error e)
      ∧ (∀ lv, parseLevel opt.level = .ok lv →
          ∃ v, opt.validate = .ok v
            ∧ ((opt.engine = "zap" ∨ opt.engine = "slog") →
                v.engine = opt.engine)
            ∧ (opt.engine ≠ "zap" ∧ opt.engine ≠ "slog" →
                v.engine = "slog")) := by
  constructor
  · intro e he
    unfold LogOption.validate
    rw [he]
  · intro lv hlv
    unfold LogOption.validate
    rw [hlv]
    have heng : opt.resolveOTLPConfig.engine = opt.engine := by
      simp only [LogOption.resolveOTLPConfig]
      split
      · split <;> rfl
      · rfl
    by_cases h : opt.engine = "zap" ∨ opt.engine = "slog"
    · refine ⟨opt.resolveOTLPConfig, ?_, fun _ => heng, fun hc => ?_⟩
      · have : ¬(opt.resolveOTLPConfig.engine ≠ "zap"
            ∧ opt.resolveOTLPConfig.engine ≠ "slog") := by
          rw [heng]
          rcases h with h | h <;> simp [h]
        simp [this]
      · rcases h with h | h <;> exact absurd h (by simp [hc.1, hc.2])
    · push_neg at h
      refine ⟨{ opt.resolveOTLPConfig with engine := "slog" }, ?_, ?_, ?_⟩
      · have : opt.resolveOTLPConfig.engine ≠ "zap"
            ∧ opt.resolveOTLPConfig.engine ≠ "slog" := by
          rw [heng]; exact h
        simp [this]
      · intro hc
        rcases hc with hc | hc <;> exact absurd hc (by simp [h.1, h.2])
      · intro _
        rfl

/-- Concrete input for the C8 witness: a valid level and an engine selector
outside the closed set. -/
def optC8 : LogOption :=
  { engine := "logrus", level := "INFO", format := "json",
    outputPaths := ["stdout"], otlpEndpoint := "", otlp := none,
    development := false, disableCaller := false, disableStacktrace := false }

/-- Witness for C8: the unknown engine "logrus" is normalized to "slog"
and validation succeeds. -/
theorem C8_witness :
    ∃ v, optC8.validate = Except.ok v ∧ v.engine = "slog" := by
  obtain ⟨v, hv, -, h2⟩ :=
    (C8_validate_level_only optC8).2 Level.info rfl
  exact ⟨v, hv, h2 (by decide)⟩

theorem OTLPOption.applyDefaults_noop (o : OTLPOption)
    (h : o.enabled ≠ some true) : o.applyDefaults = o := by
  unfold OTLPOption.applyDefaults
  simp [h]

theorem cfgApplyDefaults_noop (o : OTLPConfig)
    (h : o.enabled ≠ some true) : o.applyDefaults = o := by
  unfold OTLPConfig.applyDefaults
  simp [h]

theorem OTLPOption.applyDefaults_protocol_ne (o : OTLPOption)
    (h : o.enabled = some true) : o.applyDefaults.protocol ≠ "" := by
  unfold OTLPOption.applyDefaults
  simp only [h, if_true, reduceIte]
  by_cases hp : o.protocol = "" <;> simp [hp]

theorem OTLPOption.applyDefaults_timeout_ne (o : OTLPOption)
    (h : o.enabled = some true) : o.applyDefaults.timeout ≠ 0 := by
  unfold OTLPOption.applyDefaults
  simp only [h, if_true, reduceIte]
  by_cases ht : o.timeout = 0 <;> simp [ht, nsPerSecond]

theorem OTLPOption.rebuild_applyDefaults (o : OTLPOption) (e : String)
    (hen : o.enabled = some true) (hep : o.endpoint = e) :
    (OTLPOption.mk (some true) e o.applyDefaults.protocol
        o.applyDefaults.timeout o.applyDefaults.headers
        o.applyDefaults.insecure).applyDefaults
      = o.applyDefaults := by
  have hp := OTLPOption.applyDefaults_protocol_ne o hen
  have ht := OTLPOption.applyDefaults_timeout_ne o hen
  have hen2 : o.applyDefaults.enabled = some true := by
    rw [OTLPOption.applyDefaults_enabled, hen]
  have hee : o.applyDefaults.endpoint = e := by
    rw [OTLPOption.applyDefaults_endpoint, hep]
  conv_lhs => rw [OTLPOption.applyDefaults.eq_def]
  simp only [if_true, reduceIte]
  simp [hp, ht]
  rw [← hen2, ← hee]

theorem cfgApplyDefaults_protocol_ne (o : OTLPConfig)
    (h : o.enabled = some true) : o.applyDefaults.protocol ≠ "" := by
  unfold OTLPConfig.applyDefaults
  simp only [h, if_true, reduceIte]
  by_cases hp : o.protocol = "" <;> simp [hp]

theorem cfgApplyDefaults_timeout_ne (o : OTLPConfig)
    (h : o.enabled = some true) : o.applyDefaults.timeout ≠ 0 := by
  unfold OTLPConfig.applyDefaults
  simp only [h, if_true, reduceIte]
  by_cases ht : o.timeout = 0 <;> simp [ht, nsPerSecond]

theorem cfgRebuild_applyDefaults (o : OTLPConfig) (e : String)
    (hen : o.enabled = some true) (hep : o.endpoint = e) :
    (OTLPConfig.mk (some true) e o.applyDefaults.protocol
        o.applyDefaults.timeout o.applyDefaults.headers).applyDefaults
      = o.applyDefaults := by
  have hp := cfgApplyDefaults_protocol_ne o hen
  have ht := cfgApplyDefaults_timeout_ne o hen
  have hen2 : o.applyDefaults.enabled = some true := by
    rw [cfgApplyDefaults_enabled, hen]
  have hee : o.applyDefaults.endpoint = e := by
    rw [cfgApplyDefaults_endpoint, hep]
  conv_lhs => rw [OTLPConfig.applyDefaults.eq_def]
  simp only [if_true, reduceIte]
  simp [hp, ht]
  rw [← hen2, ← hee]

theorem LogOption.resolve_idem (opt : LogOption) :
    opt.resolveOTLPConfig.resolveOTLPConfig = opt.resolveOTLPConfig := by
  by_cases hE : opt.otlpEndpoint = ""
  · by_cases hc : (opt.otlp.getD OTLPOption.empty).enabled = none
        ∧ (opt.otlp.getD OTLPOption.empty).endpoint ≠ ""
    · have h1 : opt.resolveOTLPConfig =
          { opt with
            otlp := some (OTLPOption.applyDefaults
              { opt.otlp.getD OTLPOption.empty with
                enabled := some true }) } := by
        simp only [LogOption.resolveOTLPConfig]
        simp [hE, hc]
      rw [h1]
      simp only [LogOption.resolveOTLPConfig]
      simp [hE, OTLPOption.applyDefaults_enabled,
        OTLPOption.applyDefaults_idem]
    · have h1 : opt.resolveOTLPConfig =
          { opt with
            otlp := some (OTLPOption.applyDefaults
              (opt.otlp.getD OTLPOption.empty)) } := by
        simp only [LogOption.resolveOTLPConfig]
        simp [hE, hc]
      rw [h1]
      simp only [LogOption.resolveOTLPConfig]
      simp [hE, OTLPOption.applyDefaults_enabled,
        OTLPOption.applyDefaults_endpoint, hc, OTLPOption.applyDefaults_idem]
  · by_cases hf : (opt.otlp.getD OTLPOption.empty).enabled = some false
    · have h1 : opt.resolveOTLPConfig =
          { opt with otlp := some (opt.otlp.getD OTLPOption.empty) } := by
        simp only [LogOption.resolveOTLPConfig]
        simp [hE, hf]
      rw [h1]
      simp only [LogOption.resolveOTLPConfig]
      simp [hE, hf]
    · by_cases hn : (opt.otlp.getD OTLPOption.empty).enabled = none
      · have h1 : opt.resolveOTLPConfig =
            { opt with
              otlp := some (OTLPOption.applyDefaults
                { opt.otlp.getD OTLPOption.empty with
                  enabled := some true,
                  endpoint := opt.otlpEndpoint }) } := by
          simp only [LogOption.resolveOTLPConfig]
          simp [hE, hf, hn]
        rw [h1]
        simp only [LogOption.resolveOTLPConfig]
        simp [hE, OTLPOption.applyDefaults_enabled,
          OTLPOption.rebuild_applyDefaults]
      · have htrue : (opt.otlp.getD OTLPOption.empty).enabled = some true := by
          rcases h : (opt.otlp.getD OTLPOption.empty).enabled with _ | b
          · exact absurd h hn
          · cases b
            · exact absurd h hf
            · rfl
        have h1 : opt.resolveOTLPConfig =
            { opt with
              otlp := some (OTLPOption.applyDefaults
                { opt.otlp.getD OTLPOption.empty with
                  endpoint := opt.otlpEndpoint }) } := by
          simp only [LogOption.resolveOTLPConfig]
          simp [hE, hf, hn]
        rw [h1]
        simp only [LogOption.resolveOTLPConfig]
        simp [hE, OTLPOption.applyDefaults_enabled, htrue,
          OTLPOption.rebuild_applyDefaults]

theorem cfgResolve_idem (c : Config) :
    c.resolveOTLPConfig.resolveOTLPConfig = c.resolveOTLPConfig := by
  by_cases hE : c.otlpEndpoint = ""
  · by_cases hc : (c.otlp.getD OTLPConfig.empty).enabled = none
        ∧ (c.otlp.getD OTLPConfig.empty).endpoint ≠ ""
    · have h1 : c.resolveOTLPConfig =
          { c with
            otlp := some (OTLPConfig.applyDefaults
              { c.otlp.getD OTLPConfig.empty with
                enabled := some true }) } := by
        simp only [Config.resolveOTLPConfig]
        simp [hE, hc]
      rw [h1]
      simp only [Config.resolveOTLPConfig]
      simp [hE, cfgApplyDefaults_enabled,
        cfgApplyDefaults_idem]
    · have h1 : c.resolveOTLPConfig =
          { c with
            otlp := some (OTLPConfig.applyDefaults
              (c.otlp.getD OTLPConfig.empty)) } := by
        simp only [Config.resolveOTLPConfig]
        simp [hE, hc]
      rw [h1]
      simp only [Config.resolveOTLPConfig]
      simp [hE, cfgApplyDefaults_enabled,
        cfgApplyDefaults_endpoint, hc, cfgApplyDefaults_idem]
  · by_cases hf : (c.otlp.getD OTLPConfig.empty).enabled = some false
    · have h1 : c.resolveOTLPConfig =
          { c with otlp := some (c.otlp.getD OTLPConfig.empty) } := by
        simp only [Config.resolveOTLPConfig]
        simp [hE, hf]
      rw [h1]
      simp only [Config.resolveOTLPConfig]
      simp [hE, hf]
    · by_cases hn : (c.otlp.getD OTLPConfig.empty).enabled = none
      · by_cases hee : (c.otlp.getD OTLPConfig.empty).endpoint = ""
        · have h1 : c.resolveOTLPConfig =
              { c with
                otlp := some (OTLPConfig.applyDefaults
                  { c.otlp.getD OTLPConfig.empty with
                    enabled := some true,
                    endpoint := c.otlpEndpoint }) } := by
            simp only [Config.resolveOTLPConfig]
            simp [hE, hf, hn, hee]
          rw [h1]
          simp only [Config.resolveOTLPConfig]
          simp [hE, cfgApplyDefaults_enabled,
            cfgApplyDefaults_endpoint, cfgApplyDefaults_idem]
        · have h1 : c.resolveOTLPConfig =
              { c with
                otlp := some (OTLPConfig.applyDefaults
                  { c.otlp.getD OTLPConfig.empty with
                    enabled := some true }) } := by
            simp only [Config.resolveOTLPConfig]
            simp [hE, hf, hn, hee]
          rw [h1]
          simp only [Config.resolveOTLPConfig]
          simp [hE, hee, cfgApplyDefaults_enabled,
            cfgApplyDefaults_endpoint, cfgApplyDefaults_idem]
      · have htrue : (c.otlp.getD OTLPConfig.empty).enabled = some true := by
          rcases h : (c.otlp.getD OTLPConfig.empty).enabled with _ | b
          · exact absurd h hn
          · cases b
            · exact absurd h hf
            · rfl
        by_cases hee : (c.otlp.getD OTLPConfig.empty).endpoint = ""
        · have h1 : c.resolveOTLPConfig =
              { c with
                otlp := some (OTLPConfig.applyDefaults
                  { c.otlp.getD OTLPConfig.empty with
                    endpoint := c.otlpEndpoint }) } := by
            simp only [Config.resolveOTLPConfig]
            simp [hE, hf, hn, hee]
          rw [h1]
          simp only [Config.resolveOTLPConfig]
          simp [hE, htrue, cfgApplyDefaults_enabled,
            cfgApplyDefaults_endpoint, cfgApplyDefaults_idem]
        · have h1 : c.resolveOTLPConfig =
              { c with
                otlp := some (OTLPConfig.applyDefaults
                  (c.otlp.getD OTLPConfig.empty)) } := by
            simp only [Config.resolveOTLPConfig]
            simp [hE, hf, hn, hee]
          rw [h1]
          simp only [Config.resolveOTLPConfig]
          simp [hE, hee, htrue, cfgApplyDefaults_enabled,
            cfgApplyDefaults_endpoint, cfgApplyDefaults_idem]

/-- C10: both resolvers are idempotent — resolving an already-resolved
configuration changes nothing, in the `option` package and in the `config`
package alike. -/
theorem C10_resolve_idempotent (opt : LogOption) (c : Config) :
    opt.resolveOTLPConfig.resolveOTLPConfig = opt.resolveOTLPConfig
      ∧ c.resolveOTLPConfig.resolveOTLPConfig = c.resolveOTLPConfig :=
  ⟨LogOption.resolve_idem opt, cfgResolve_idem c⟩

theorem LogOption.validate_engine_mem (opt v : LogOption)
    (h : opt.validate = .ok v) : v.engine = "zap" ∨ v.engine = "slog" := by
  unfold LogOption.validate at h
  cases hp : parseLevel opt.level with
  | error e =>
    rw [hp] at h
    exact absurd h (by simp)
  | ok lv =>
    rw [hp] at h
    simp only at h
    by_cases hc : opt.resolveOTLPConfig.engine ≠ "zap"
        ∧ opt.resolveOTLPConfig.engine ≠ "slog"
    · rw [if_pos hc] at h
      simp only [Except.ok.injEq] at h
      subst h
      exact Or.inr rfl
    · rw [if_neg hc] at h
      simp only [Except.ok.injEq] at h
      subst h
      rcases Classical.em (opt.resolveOTLPConfig.engine = "zap") with hz | hz
      · exact Or.inl hz
      · rcases Classical.em (opt.resolveOTLPConfig.engine = "slog") with hs | hs
        · exact Or.inr hs
        · exact absurd ⟨hz, hs⟩ hc

/-- C6: when validation fails, `createLogger` returns the wrapped
validation error and attempts no engine construction; when validation
succeeds it first attempts the requested engine, returns its logger on
success without trying the alternate, and on a construction failure
returns exactly the alternate engine's construction result, having tried
the two engines in order — so an error comes back only when both fail. -/
theorem C6_factory_fallback {L : Type} (opt : LogOption)
    (construct : String → Except String L) :
    (∀ e, opt.validate = .error e →
        LoggerFactory.createLogger opt construct
          = (.error ("invalid configuration: " ++ e), []))
      ∧ (∀ v, opt.validate = .ok v →
          (∀ l, construct v.engine = .ok l →
              LoggerFactory.createLogger opt construct = (.ok l, [v.engine]))
            ∧ (∀ e, construct v.engine = .error e →
                LoggerFactory.createLogger opt construct
                  = (construct (alternateEngine v.engine),
                     [v.engine, alternateEngine v.engine]))) := by
  refine ⟨?_, ?_⟩
  · intro e he
    unfold LoggerFactory.createLogger
    rw [he]
  · intro v hv
    have hmem := LogOption.validate_engine_mem opt v hv
    have hcond : ¬(v.engine ≠ "zap" ∧ v.engine ≠ "slog") := by
      rcases hmem with h | h <;> simp [h]
    constructor
    · intro l hl
      unfold LoggerFactory.createLogger
      rw [hv]
      dsimp only
      rw [if_neg hcond, hl]
    · intro e he
      unfold LoggerFactory.createLogger
      rw [hv]
      dsimp only
      rw [if_neg hcond, he]

/-- Concrete configuration for the C6 witness: a valid configuration
requesting the zap engine. -/
def optC6 : LogOption :=
  { engine := "zap", level := "INFO", format := "json",
    outputPaths := ["stdout"], otlpEndpoint := "", otlp := none,
    development := false, disableCaller := false, disableStacktrace := false }

/-- The resolved form of `optC6` produced by validation. -/
def resolvedC6 : LogOption :=
  { optC6 with otlp := some OTLPOption.empty }

/-- Concrete constructor outcomes for the C6 witness: zap construction
fails, slog construction succeeds. -/
def constructC6 : String → Except String Nat :=
  fun e => if e = "zap" then .error "zap construction failed" else .ok 7

/-- Witness for C6: with zap failing, the factory returns the slog logger
after trying zap first. -/
theorem C6_witness :
    LoggerFactory.createLogger optC6 constructC6
      = (Except.ok 7, ["zap", "slog"]) := by
  have h := ((C6_factory_fallback optC6 constructC6).2 resolvedC6 rfl).2
      "zap construction failed" rfl
  rw [h]
  rfl

/-- Counterexample to C9: the endpoint "ws://collector:4317" contains a
scheme, so per the claim the request URL should be the literal endpoint;
the code checks only for the prefix "http" and wraps it instead. -/
theorem C9_counterexample :
    containsScheme "ws://collector:4317" = true
      ∧ buildHTTPURL "ws://collector:4317" ≠ "ws://collector:4317"
      ∧ buildHTTPURL "ws://collector:4317"
          = "http://ws://collector:4317/v1/logs" := by
  refine ⟨by decide, ?_, by decide⟩
  decide

/-- C9 as amended: the HTTP export uses the literal endpoint exactly when
the endpoint starts with "http", else prepends "http://" and appends
"/v1/logs"; this agrees with the spec rule on every endpoint where
starting with "http" coincides with containing a scheme (in particular on
all http/https URLs and all bare host:port strings not beginning with
"http"). -/
theorem C9_amended (e : String)
    (h : strHasPrefix e "http" = containsScheme e) :
    buildHTTPURL e = specHTTPURL e := by
  unfold buildHTTPURL specHTTPURL
  rw [h]

/-- Witness for the amended C9 on a bare host:port endpoint. -/
theorem C9_witness :
    buildHTTPURL "localhost:4317" = specHTTPURL "localhost:4317" :=
  C9_amended "localhost:4317" (by decide)

theorem convertToSlogAttrs_append_last (mapper : String → String) :
    ∀ (ys : List GoVal), ys.length % 2 = 0 → ∀ k,
      convertToSlogAttrs mapper (ys ++ [k])
        = convertToSlogAttrs mapper ys ++ [(anyToString k, GoVal.vNil)]
  | [], _, k => by simp [convertToSlogAttrs]
  | [a], h, k => by simp at h
  | a :: b :: ys, h, k => by
    have h0 : ys.length % 2 = 0 := by
      simp [List.length_cons] at h
      omega
    have ih := convertToSlogAttrs_append_last mapper ys h0 k
    simp [convertToSlogAttrs, ih]

theorem zapStandardizeFields_append_last (mapper : String → String) :
    ∀ (ys : List GoVal), ys.length % 2 = 0 → ∀ k,
      zapStandardizeFields mapper (ys ++ [k])
        = zapStandardizeFields mapper ys
            ++ [(mapper (anyToString k), GoVal.vNil)]
  | [], _, k => by simp [zapStandardizeFields]
  | [a], h, k => by simp at h
  | a :: b :: ys, h, k => by
    have h0 : ys.length % 2 = 0 := by
      simp [List.length_cons] at h
      omega
    have ih := zapStandardizeFields_append_last mapper ys h0 k
    simp [zapStandardizeFields, ih]

theorem kvPairs_append_last :
    ∀ (ys : List GoVal), ys.length % 2 = 0 → ∀ k,
      kvPairs (ys ++ [k]) = kvPairs ys
  | [], _, k => rfl
  | [a], h, k => by simp at h
  | a :: b :: ys, h, k => by
    have h0 : ys.length % 2 = 0 := by
      simp [List.length_cons] at h
      omega
    have ih := kvPairs_append_last ys h0 k
    simp [kvPairs, ih]

theorem exportAttrs_append_last (mapper : String → String) (ys : List GoVal)
    (h : ys.length % 2 = 0) (k : GoVal) :
    exportAttrs mapper (ys ++ [k]) = exportAttrs mapper ys := by
  unfold exportAttrs
  rw [kvPairs_append_last ys h k]

/-- Concrete slog logger for the C5 counterexample, with export active. -/
def slogC5 : SlogLogger :=
  { level := .debug, mapper := fun s => s, caller := "", stacktrace := "",
    hasOTLP := true }

/-- Counterexample to C5: for the odd key/value sequence
`["ctx", "req", "lonely"]`, the local write does carry the trailing key
paired with a nil value, but the export path drops it — its attribute map
contains only the complete pair, so the final key is not present in the
exported record. -/
theorem C5_counterexample :
    ([GoVal.vStr "ctx", GoVal.vStr "req", GoVal.vStr "lonely"].length % 2
        = 1)
      ∧ (slogC5.kvCall .info "msg"
            [GoVal.vStr "ctx", GoVal.vStr "req", GoVal.vStr "lonely"]).locals
          = [⟨.info, "msg", [("engine", GoVal.vStr "slog"),
              ("ctx", GoVal.vStr "req"), ("lonely", GoVal.vNil)]⟩]
      ∧ (slogC5.kvCall .info "msg"
            [GoVal.vStr "ctx", GoVal.vStr "req", GoVal.vStr "lonely"]).exports
          = [⟨.info, "msg", [("ctx", GoVal.vStr "req")]⟩] := by
  refine ⟨by decide, by decide, by decide⟩

/-- C5 as amended: for every odd-length key/value sequence, the local
write paths of both engines pair the final key with a nil value (slog
without mapping the trailing key, zap with mapping), while the export
path's attribute map ignores the trailing key entirely — it is exactly the
map of the sequence without its final element. -/
theorem C5_amended (mapper : String → String) (ys : List GoVal) (k : GoVal)
    (h : (ys ++ [k]).length % 2 = 1) :
    convertToSlogAttrs mapper (ys ++ [k])
        = convertToSlogAttrs mapper ys ++ [(anyToString k, GoVal.vNil)]
      ∧ zapStandardizeFields mapper (ys ++ [k])
        = zapStandardizeFields mapper ys
            ++ [(mapper (anyToString k), GoVal.vNil)]
      ∧ exportAttrs mapper (ys ++ [k]) = exportAttrs mapper ys := by
  have h0 : ys.length % 2 = 0 := by
    simp [List.length_append] at h
    omega
  exact ⟨convertToSlogAttrs_append_last mapper ys h0 k,
    zapStandardizeFields_append_last mapper ys h0 k,
    exportAttrs_append_last mapper ys h0 k⟩

/-- Witness for the amended C5 on a concrete odd-length sequence. -/
theorem C5_witness :
    convertToSlogAttrs (fun s => s)
        [GoVal.vStr "a", GoVal.vInt 1, GoVal.vStr "z"]
        = [("a", GoVal.vInt 1), ("z", GoVal.vNil)]
      ∧ zapStandardizeFields (fun s => s)
          [GoVal.vStr "a", GoVal.vInt 1, GoVal.vStr "z"]
        = [("a", GoVal.vInt 1), ("z", GoVal.vNil)]
      ∧ exportAttrs (fun s => s)
          [GoVal.vStr "a", GoVal.vInt 1, GoVal.vStr "z"]
        = [("a", GoVal.vInt 1)] := by
  obtain ⟨h1, h2, h3⟩ :=
    C5_amended (fun s => s) [GoVal.vStr "a", GoVal.vInt 1] (GoVal.vStr "z")
      (by decide)
  refine ⟨?_, ?_, ?_⟩
  · rw [show [GoVal.vStr "a", GoVal.vInt 1, GoVal.vStr "z"]
        = [GoVal.vStr "a", GoVal.vInt 1] ++ [GoVal.vStr "z"] from rfl, h1]
    decide
  · rw [show [GoVal.vStr "a", GoVal.vInt 1, GoVal.vStr "z"]
        = [GoVal.vStr "a", GoVal.vInt 1] ++ [GoVal.vStr "z"] from rfl, h2]
    decide
  · rw [show [GoVal.vStr "a", GoVal.vInt 1, GoVal.vStr "z"]
        = [GoVal.vStr "a", GoVal.vInt 1] ++ [GoVal.vStr "z"] from rfl, h3]
    decide

/-- Concrete slog logger for the C3 counterexample: minimum level info,
export active. -/
def slogC3 : SlogLogger :=
  { level := .info, mapper := fun s => s, caller := "", stacktrace := "",
    hasOTLP := true }

/-- Counterexample to C3: a debug-severity key/value call on a logger with
minimum level info and export active writes nothing locally, yet still
makes one call into the Export Client — it is not free of side effects. -/
theorem C3_counterexample :
    Level.debug.toNat < slogC3.level.toNat
      ∧ slogC3.hasOTLP = true
      ∧ (slogC3.kvCall .debug "below min" []).locals = []
      ∧ (slogC3.kvCall .debug "below min" []).exports
          = [⟨.debug, "below min", []⟩] := by
  refine ⟨by decide, by decide, by decide, by decide⟩

/-- C3 as amended: a below-minimum call performs no local write — except
slog-engine error-severity calls when the minimum is fatal, because slog
maps fatal onto its error level — and never exits; variadic and
printf-style below-minimum calls have no side effects at all, but a
key/value below-minimum call still makes exactly one call into the Export
Client whenever export is active, in both engines. -/
theorem C3_amended (lvl minL : Level) (h : lvl.toNat < minL.toNat)
    (l : SlogLogger) (z : ZapLogger) (hl : l.level = minL)
    (hz : z.level = minL) (args kvs : List GoVal) (msg : String) :
    ((l.basicCall lvl args).locals = [] ↔ ¬(lvl = .error ∧ minL = .fatal))
      ∧ (l.basicCall lvl args).exports = []
      ∧ (l.basicCall lvl args).exited = false
      ∧ ((l.printfCall lvl msg).locals = [] ↔ ¬(lvl = .error ∧ minL = .fatal))
      ∧ (l.printfCall lvl msg).exports = []
      ∧ (l.printfCall lvl msg).exited = false
      ∧ ((l.kvCall lvl msg kvs).locals = [] ↔ ¬(lvl = .error ∧ minL = .fatal))
      ∧ (l.kvCall lvl msg kvs).exports.length = (if l.hasOTLP then 1 else 0)
      ∧ (l.kvCall lvl msg kvs).exited = false
      ∧ (z.basicCall lvl args).locals = []
      ∧ (z.basicCall lvl args).exports = []
      ∧ (z.basicCall lvl args).exited = false
      ∧ (z.printfCall lvl msg).locals = []
      ∧ (z.printfCall lvl msg).exports = []
      ∧ (z.printfCall lvl msg).exited = false
      ∧ (z.kvCall lvl msg kvs).locals = []
      ∧ (z.kvCall lvl msg kvs).exports.length = (if z.hasOTLP then 1 else 0)
      ∧ (z.kvCall lvl msg kvs).exited = false := by
  obtain ⟨llev, lmap, lcal, lstk, lot⟩ := l
  obtain ⟨zlev, zmap, zcal, zstk, zot⟩ := z
  simp only at hl hz
  subst hl
  subst hz
  cases lvl <;> cases zlev <;>
    first
      | exact absurd h (by decide)
      | (cases lot <;> cases zot <;>
          simp_all [SlogLogger.basicCall, SlogLogger.printfCall,
            SlogLogger.kvCall, ZapLogger.basicCall, ZapLogger.printfCall,
            ZapLogger.kvCall, slogEnabled, zapEnabled, mapToSlogLevel,
            mapToZapLevel, sendToOTLPEffect, Level.toNat])

/-- Concrete slog logger for the C3 witness. -/
def slogW3 : SlogLogger :=
  { level := .warn, mapper := fun s => s, caller := "", stacktrace := "",
    hasOTLP := true }

/-- Concrete zap logger for the C3 witness. -/
def zapW3 : ZapLogger :=
  { level := .warn, mapper := fun s => s, caller := "", stacktrace := "",
    hasOTLP := true }

/-- Witness for the amended C3: at minimum level warn, a debug variadic
call on slog exports nothing, while a debug key/value call on zap, despite
being suppressed locally, makes one Export Client call. -/
theorem C3_witness :
    (slogW3.basicCall .debug []).exports = []
      ∧ (zapW3.kvCall .debug "m" []).locals = []
      ∧ (zapW3.kvCall .debug "m" []).exports.length = 1 := by
  obtain ⟨h1, h2, h3, h4, h5, h6, h7, h8, h9, g1, g2, g3, g4, g5, g6, g7,
      g8, g9⟩ :=
    C3_amended .debug .warn (by decide) slogW3 zapW3 rfl rfl [] [] "m"
  refine ⟨h2, g7, ?_⟩
  rw [g8]
  rfl

/-- Concrete slog logger for the C4 counterexample: export active. -/
def slogC4 : SlogLogger :=
  { level := .info, mapper := fun s => s, caller := "", stacktrace := "",
    hasOTLP := true }

/-- Counterexample to C4: a variadic info call at the minimum level with
export active writes locally but makes no call into the Export Client —
only the key/value convention exports. -/
theorem C4_counterexample :
    slogC4.hasOTLP = true
      ∧ slogC4.level.toNat ≤ Level.info.toNat
      ∧ (slogC4.basicCall .info [GoVal.vStr "hello"]).locals.length = 1
      ∧ (slogC4.basicCall .info [GoVal.vStr "hello"]).exports = [] := by
  refine ⟨by decide, by decide, by decide, by decide⟩

/-- C4 as amended: with export active and severity at or above the
minimum, every call writes exactly one local record, but only the
key/value convention hands the record to the Export Client; variadic and
printf-style calls never export, and the zap engine's fatal key/value call
terminates inside the local write and never reaches its export step. -/
theorem C4_amended (lvl minL : Level) (h : minL.toNat ≤ lvl.toNat)
    (l : SlogLogger) (z : ZapLogger) (hl : l.level = minL)
    (hz : z.level = minL) (hlo : l.hasOTLP = true) (hzo : z.hasOTLP = true)
    (args kvs : List GoVal) (msg : String) :
    (l.basicCall lvl args).locals.length = 1
      ∧ (l.basicCall lvl args).exports = []
      ∧ (l.printfCall lvl msg).locals.length = 1
      ∧ (l.printfCall lvl msg).exports = []
      ∧ (l.kvCall lvl msg kvs).locals.length = 1
      ∧ (l.kvCall lvl msg kvs).exports = [⟨lvl, msg, exportAttrs l.mapper kvs⟩]
      ∧ (z.basicCall lvl args).locals.length = 1
      ∧ (z.basicCall lvl args).exports = []
      ∧ (z.printfCall lvl msg).locals.length = 1
      ∧ (z.printfCall lvl msg).exports = []
      ∧ (z.kvCall lvl msg kvs).locals.length = 1
      ∧ (z.kvCall lvl msg kvs).exports
          = (if lvl = .fatal then []
             else [⟨lvl, msg, exportAttrs z.mapper kvs⟩]) := by
  obtain ⟨llev, lmap, lcal, lstk, lot⟩ := l
  obtain ⟨zlev, zmap, zcal, zstk, zot⟩ := z
  simp only at hl hz hlo hzo
  subst hl
  subst hz
  subst hlo
  subst hzo
  cases lvl <;> cases zlev <;>
    first
      | exact absurd h (by decide)
      | simp_all [SlogLogger.basicCall, SlogLogger.printfCall,
          SlogLogger.kvCall, ZapLogger.basicCall, ZapLogger.printfCall,
          ZapLogger.kvCall, slogEnabled, zapEnabled, mapToSlogLevel,
          mapToZapLevel, sendToOTLPEffect, Level.toNat]

/-- Concrete slog logger for the C4 witness. -/
def slogW4 : SlogLogger :=
  { level := .info, mapper := fun s => s, caller := "", stacktrace := "",
    hasOTLP := true }

/-- Concrete zap logger for the C4 witness. -/
def zapW4 : ZapLogger :=
  { level := .info, mapper := fun s => s, caller := "", stacktrace := "",
    hasOTLP := true }

/-- Witness for the amended C4: at minimum level info with export active,
an info key/value call on slog exports its one standardized record, and an
info variadic call on zap exports nothing. -/
theorem C4_witness :
    (slogW4.kvCall .info "m" [GoVal.vStr "k", GoVal.vInt 5]).exports
        = [⟨.info, "m", [("k", GoVal.vInt 5)]⟩]
      ∧ (zapW4.basicCall .info [GoVal.vStr "boom"]).exports = [] := by
  obtain ⟨h1, h2, h3, h4, h5, h6, h7, h8, h9, h10, h11, h12⟩ :=
    C4_amended .info .info (by decide) slogW4 zapW4 rfl rfl rfl rfl
      [GoVal.vStr "boom"] [GoVal.vStr "k", GoVal.vInt 5] "m"
  refine ⟨?_, h8⟩
  rw [h6]
  decide
